import Mathlib

/-!
Shallow embedding of the DuckDB dialect compiler
(`ibis/backends/duckdb/compiler.py`).

Compilation rules whose interesting behaviour is the shape of the emitted
dialect expression (or the error they raise) are embedded as functions into
a small expression AST (`SqlExpr`), returning `Except CompileError SqlExpr`
when the source rule can raise.  Rules whose claims concern the value
computed by the generated SQL are embedded semantically: each DuckDB
list/map primitive used by the generated expressions is given a Lean
function with its documented DuckDB behaviour (a dialect capability fact),
and the rule is the composition of those primitives exactly as the source
composes the corresponding function calls.
-/

/-- An ibis interval unit, carrying the short code and the singular and
plural names, as used by `unit.short`, `unit.singular`, `unit.plural` in
the source. -/
structure IntervalUnit where
  short : String
  singular : String
  plural : String
deriving DecidableEq, Repr

/-- The nanosecond interval unit. -/
def nsUnit : IntervalUnit := ⟨"ns", "nanosecond", "nanoseconds"⟩

/-- The microsecond interval unit. -/
def usUnit : IntervalUnit := ⟨"us", "microsecond", "microseconds"⟩

/-- The millisecond interval unit. -/
def msUnit : IntervalUnit := ⟨"ms", "millisecond", "milliseconds"⟩

/-- The second interval unit. -/
def sUnit : IntervalUnit := ⟨"s", "second", "seconds"⟩

/-- The ibis datatypes the embedded rules inspect: `is_interval()`,
`is_timestamp()`, `is_integer()`, `is_boolean()` and `.nullable`. -/
inductive DType
  | int32 (nullable : Bool)
  | boolean (nullable : Bool)
  | interval (unit : IntervalUnit) (nullable : Bool)
  | timestamp (nullable : Bool)
  | other (name : String) (nullable : Bool)
deriving DecidableEq, Repr

/-- `dtype.is_interval()`. -/
def DType.isInterval : DType → Bool
  | .interval _ _ => true
  | _ => false

/-- `dtype.is_timestamp()`. -/
def DType.isTimestamp : DType → Bool
  | .timestamp _ => true
  | _ => false

/-- `dtype.is_integer()`. -/
def DType.isInteger : DType → Bool
  | .int32 _ => true
  | _ => false

/-- `dtype.is_boolean()`. -/
def DType.isBoolean : DType → Bool
  | .boolean _ => true
  | _ => false

/-- `dtype.nullable`. -/
def DType.nullable : DType → Bool
  | .int32 n => n
  | .boolean n => n
  | .interval _ n => n
  | .timestamp n => n
  | .other _ n => n

/-- `dtype.unit.short` of an interval dtype. -/
def DType.unitShort : DType → String
  | .interval u _ => u.short
  | _ => ""

/-- Target-dialect expressions, the fragment of the sqlglot expression tree
that the embedded rules construct: function calls (`self.f[name](args)`),
casts, multiplication, the filtered-aggregate wrapper
(`sge.Filter(this=expr, expression=sge.Where(this=where))`), interval
literals (`sge.Interval`), `sge.UnixToTime`, integer and string literals,
and opaque already-translated children (`var`). `nonIntervalLiteral`
stands for the non-interval branches of `visit_NonNullLiteral` (uuid,
binary, numeric, time, timestamp rendering), which no interval claim
inspects. -/
inductive SqlExpr
  | var (name : String)
  | intLit (n : Int)
  | strLit (s : String)
  | func (name : String) (args : List SqlExpr)
  | cast (e : SqlExpr) (ty : DType)
  | mul (a b : SqlExpr)
  | filterAgg (agg : SqlExpr) (cond : SqlExpr)
  | intervalLit (value : String) (unit : String)
  | unixToTime (e : SqlExpr)
  | nonIntervalLiteral (value : String) (dtype : DType)
deriving Repr

/-- The failure modes of the embedded rules:
`com.UnsupportedOperationError`, Python `NotImplementedError`, and a Python
`KeyError` escaping from a dict subscript. -/
inductive CompileError
  | unsupportedOperation (msg : String)
  | notImplemented (msg : String)
  | keyError (key : String)
deriving DecidableEq, Repr

/-- Whether a failure is the unsupported-operation kind. -/
def CompileError.isUnsupportedOperation : CompileError → Bool
  | .unsupportedOperation _ => true
  | _ => false

/-- The compiler's dialect, rendered into error messages
(`f-string` of `self.dialect`). -/
def dialect : String := "duckdb"

/-- `_INTERVAL_SUFFIXES` from the source: short unit code to constructor
suffix.  Note there is no entry for the short code of the nanosecond
unit. -/
def _INTERVAL_SUFFIXES : List (String × String) :=
  [("ms", "milliseconds"), ("us", "microseconds"), ("s", "seconds"),
   ("m", "minutes"), ("h", "hours"), ("D", "days"), ("M", "months"),
   ("Y", "years")]

/-- Python `dict` subscript `_INTERVAL_SUFFIXES[key]` modelled as a lookup
returning `none` exactly when the subscript would raise `KeyError`. -/
def lookupSuffix (key : String) : Option String :=
  _INTERVAL_SUFFIXES.lookup key

/-- `DuckDBCompiler._aggregate`: build the function call and wrap it in a
filtered-aggregate expression exactly when `where` is not `None`. -/
def _aggregate (funcname : String) (args : List SqlExpr)
    (whereClause : Option SqlExpr) : SqlExpr :=
  let expr := SqlExpr.func funcname args
  match whereClause with
  | some w => SqlExpr.filterAgg expr w
  | none => expr

/-- The rule attached by the `_SIMPLE_OPS` registration loop: for a
reduction node kind the generated rule threads the `where` filter through
the aggregate facade, otherwise it emits a plain function call over the
children in argument order.  The facade call `self.agg[name](...)` is
modelled, per the spec's expression-builder facade, as delegation to
`_aggregate`. -/
def simpleOpRule (isReduction : Bool) (name : String)
    (kwValues : List SqlExpr) (whereClause : Option SqlExpr) : SqlExpr :=
  if isReduction then _aggregate name kwValues whereClause
  else SqlExpr.func name kwValues

/-- `visit_IntervalFromInteger`: reject nanosecond resolution, special-case
weeks as `to_days(arg * 7)`, otherwise call the plural-named
constructor. -/
def visit_IntervalFromInteger (arg : SqlExpr) (unit : IntervalUnit) :
    Except CompileError SqlExpr :=
  if unit.short = "ns" then
    .error (.unsupportedOperation
      (dialect ++ " doesn't support nanosecond interval resolutions"))
  else if unit.singular = "week" then
    .ok (.func "to_days" [.mul arg (.intLit 7)])
  else
    .ok (.func ("to_" ++ unit.plural) [arg])

/-- `visit_Cast`: casting to an interval type routes through the
unit-specific constructor found in `_INTERVAL_SUFFIXES` (the dict
subscript raises `KeyError` for a unit with no entry); casting an
integer to a timestamp routes through `to_timestamp`; all other casts
pass through as a generic cast. -/
def visit_Cast (arg : SqlExpr) (argDtype : DType) (toTy : DType) :
    Except CompileError SqlExpr :=
  if toTy.isInterval then
    match lookupSuffix toTy.unitShort with
    | some suffix => .ok (.func ("to_" ++ suffix) [.cast arg (.int32 true)])
    | none => .error (.keyError toTy.unitShort)
  else if toTy.isTimestamp && argDtype.isInteger then
    .ok (.func "to_timestamp" [arg])
  else
    .ok (.cast arg toTy)

/-- `visit_NonNullLiteral`, interval branch embedded in full: reject
nanosecond resolution, otherwise render an interval literal whose unit is
the upper-cased resolution (`dtype.resolution` is the unit's singular
name).  The non-interval branches (uuid, binary, numeric, time,
timestamp) are collapsed into the `nonIntervalLiteral` constructor; no
claim inspects them. -/
def visit_NonNullLiteral (value : String) (dtype : DType) :
    Except CompileError SqlExpr :=
  match dtype with
  | .interval u _ =>
    if u.short = "ns" then
      .error (.unsupportedOperation
        (dialect ++ " doesn't support nanosecond interval resolutions"))
    else
      .ok (.intervalLit value u.singular.toUpper)
  | d => .ok (.nonIntervalLiteral value d)

/-- `visit_TimestampFromUNIX`: `ms` becomes `epoch_ms`, `s` becomes
`sge.UnixToTime`, everything else raises an unsupported-operation
error. -/
def visit_TimestampFromUNIX (arg : SqlExpr) (unit : IntervalUnit) :
    Except CompileError SqlExpr :=
  let u := unit.short
  if u = "ms" then .ok (.func "epoch_ms" [arg])
  else if u = "s" then .ok (.unixToTime arg)
  else .error (.unsupportedOperation ("'" ++ u ++ "' unit is not supported!"))

/-- `visit_HexDigest`: only `md5` and `sha256` are allow-listed, each
producing the single-argument call of the same name; anything else raises
`NotImplementedError`. -/
def visit_HexDigest (arg : SqlExpr) (how : String) :
    Except CompileError SqlExpr :=
  if how = "md5" ∨ how = "sha256" then
    .ok (.func how [arg])
  else
    .error (.notImplemented ("No available hashing function for " ++ how))

/-- `visit_Correlation`: reject the `sample` mode; cast each boolean-typed
operand to `Int32` with the operand's own nullability; call the `corr`
aggregate through the facade (modelled, per the spec's expression-builder
facade, as delegation to `_aggregate`) with the `where` filter. -/
def visit_Correlation (left right : SqlExpr) (leftType rightType : DType)
    (how : String) (whereClause : Option SqlExpr) :
    Except CompileError SqlExpr :=
  if how = "sample" then
    .error (.unsupportedOperation
      (dialect ++ " only implements `pop` correlation coefficient"))
  else
    let left := if leftType.isBoolean then
        SqlExpr.cast left (.int32 leftType.nullable) else left
    let right := if rightType.isBoolean then
        SqlExpr.cast right (.int32 rightType.nullable) else right
    .ok (_aggregate "corr" [left, right] whereClause)

/-! ### DuckDB list/map primitive semantics

Value-level models of the DuckDB functions the generated expressions call,
over arrays of nullable integers.  A `Cell` is a nullable element; `none`
is SQL `NULL`.  Each model states the documented DuckDB behaviour — the
dialect capability facts the source relies on. -/

/-- A nullable integer element of a DuckDB list. -/
abbrev Cell := Option Int

/-- DuckDB `len` / `array_length`: the number of elements, nulls
included. -/
def duck_len (xs : List Cell) : Nat := xs.length

/-- DuckDB `list_count` (the `count` aggregate applied over the list):
the number of non-null elements. -/
def list_count (xs : List Cell) : Nat := (xs.filterMap id).length

/-- First-occurrence deduplication helper. -/
def dedupAux : List Int → List Int → List Int
  | [], _ => []
  | x :: rest, seen =>
    if x ∈ seen then dedupAux rest seen else x :: dedupAux rest (x :: seen)

/-- DuckDB `list_distinct`: removes all duplicates and all nulls from the
list. -/
def list_distinct (xs : List Cell) : List Cell :=
  (dedupAux (xs.filterMap id) []).map some

/-- DuckDB `list_extract` (also `list[i]`): one-based; a positive index
past the end yields `NULL`; a negative index counts from the back
(`-1` is the last element) and yields `NULL` when its magnitude exceeds
the length; index `0` yields `NULL`. -/
def list_extract (xs : List Cell) (i : Int) : Cell :=
  if 0 < i then xs.getD (i - 1).toNat none
  else if i < 0 then
    if 0 ≤ (xs.length : Int) + i then xs.getD ((xs.length : Int) + i).toNat none
    else none
  else none

/-- DuckDB `list_slice` for the non-negative bounds the compiled slices
produce: one-based, both bounds inclusive, clamped to the list. -/
def list_slice (xs : List Cell) (b e : Int) : List Cell :=
  (xs.take e.toNat).drop (b - 1).toNat

/-- DuckDB `element_at` on a map: the list holding the value stored at the
key, or the empty list when the key is absent (the dialect capability fact
the `MapGet` rule relies on). -/
def element_at : List (Int × Cell) → Int → List Cell
  | [], _ => []
  | (k, v) :: rest, key => if k = key then [v] else element_at rest key

/-- DuckDB `ifnull`: the second argument when the first is `NULL`. -/
def ifnull (a b : Cell) : Cell :=
  match a with
  | none => b
  | some v => some v

/-- `visit_ArrayDistinct` evaluated under the DuckDB primitives: a null
array maps to null (the `arg IS NULL` guard); otherwise the result is
`list_distinct(arg)` concatenated with a one-null list exactly when
`list_count(arg) < len(arg)`. -/
def visit_ArrayDistinct (arg : Option (List Cell)) : Option (List Cell) :=
  match arg with
  | none => none
  | some xs =>
    some (list_distinct xs ++
      (if list_count xs < duck_len xs then [none] else []))

/-- `visit_ArrayIndex` evaluated under the DuckDB primitives:
`list_extract(arg, index + cast(index >= 0, int))`, so one is added to the
index exactly when it is non-negative. -/
def visit_ArrayIndex (xs : List Cell) (i : Int) : Cell :=
  list_extract xs (i + (if 0 ≤ i then 1 else 0))

/-- `DuckDBCompiler._neg_idx_to_pos`: a non-negative index passes through;
a negative index becomes `array_size + greatest(idx, -array_size)`. -/
def _neg_idx_to_pos (arrayLength : Int) (idx : Int) : Int :=
  if 0 ≤ idx then idx else arrayLength + max idx (-arrayLength)

/-- `visit_ArraySlice` evaluated under the DuckDB primitives: a missing
start becomes `0`, a present start becomes
`least(len(arg), _neg_idx_to_pos(arg, start))`; a missing stop becomes
`len(arg)`, a present stop becomes `_neg_idx_to_pos(arg, stop)`; then
`list_slice(arg, start + 1, stop)`. -/
def visit_ArraySlice (xs : List Cell) (start stop : Option Int) :
    List Cell :=
  let argLength : Int := (duck_len xs : Int)
  let start' : Int :=
    match start with
    | none => 0
    | some s => min argLength (_neg_idx_to_pos argLength s)
  let stop' : Int :=
    match stop with
    | none => argLength
    | some s => _neg_idx_to_pos argLength s
  list_slice xs (start' + 1) stop'

/-- `visit_MapGet` evaluated under the DuckDB primitives:
`ifnull(list_extract(element_at(arg, key), 1), default)`. -/
def visit_MapGet (m : List (Int × Cell)) (key : Int) (deflt : Cell) :
    Cell :=
  ifnull (list_extract (element_at m key) 1) deflt

/-! ### Claims -/

/-- Claim C3: for every array length `L` and integer index `i`, the
negative-index normalization used for slice bounds returns `i` when
`i ≥ 0` and `max (L + i) 0` (equivalently `L + max i (-L)`) when `i < 0`;
in particular `L = 2, i = -3` normalizes to `0` and `L = 5, i = -2`
normalizes to `3`. -/
theorem neg_idx_to_pos_spec (L : Nat) (i : Int) :
    _neg_idx_to_pos (L : Int) i = (if 0 ≤ i then i else max ((L : Int) + i) 0) ∧
    _neg_idx_to_pos (L : Int) i =
      (if 0 ≤ i then i else (L : Int) + max i (-(L : Int))) ∧
    _neg_idx_to_pos 2 (-3) = 0 ∧
    _neg_idx_to_pos 5 (-2) = 3 := by
  refine ⟨?_, rfl, by decide, by decide⟩
  unfold _neg_idx_to_pos
  split_ifs with h
  · rfl
  · omega

/-- Claim C7: requesting the `sample` correlation mode always fails with
an unsupported-operation error; requesting the `pop` mode succeeds, and a
boolean-typed operand is cast to `Int32` with the operand's own
nullability before the `corr` aggregate is called. -/
theorem correlation_modes (l r : SqlExpr) (leftTy rightTy : DType)
    (w : Option SqlExpr) (ln rn : Bool) :
    visit_Correlation l r leftTy rightTy "sample" w =
      .error (.unsupportedOperation
        (dialect ++ " only implements `pop` correlation coefficient")) ∧
    visit_Correlation l r (.boolean ln) (.boolean rn) "pop" w =
      .ok (_aggregate "corr"
        [SqlExpr.cast l (.int32 ln), SqlExpr.cast r (.int32 rn)] w) ∧
    visit_Correlation l r leftTy rightTy "pop" w =
      .ok (_aggregate "corr"
        [if leftTy.isBoolean then SqlExpr.cast l (.int32 leftTy.nullable)
         else l,
         if rightTy.isBoolean then SqlExpr.cast r (.int32 rightTy.nullable)
         else r] w) :=
  ⟨rfl, rfl, rfl⟩

/-- Claim C8: for a reduction-kind node compiled via the uniform-mapping
table, a non-null `where` predicate produces the filtered-aggregate
wrapper around the aggregate call, and omitting it produces the bare call
with the same function name and argument list; a non-reduction entry
always produces the plain call. -/
theorem aggregate_filter_threading (name : String) (args : List SqlExpr)
    (w : SqlExpr) (wOpt : Option SqlExpr) :
    _aggregate name args (some w) =
      SqlExpr.filterAgg (SqlExpr.func name args) w ∧
    _aggregate name args none = SqlExpr.func name args ∧
    simpleOpRule true name args wOpt = _aggregate name args wOpt ∧
    simpleOpRule false name args wOpt = SqlExpr.func name args :=
  ⟨rfl, rfl, rfl, rfl⟩

/-- Claim C9: an algorithm name in the allow-list (`md5`, `sha256`)
produces the corresponding single-argument call; any other name fails
with the no-available-hashing-function error. -/
theorem hex_digest_allowlist (arg : SqlExpr) (how : String) :
    (how = "md5" ∨ how = "sha256" →
      visit_HexDigest arg how = .ok (.func how [arg])) ∧
    (¬(how = "md5" ∨ how = "sha256") →
      visit_HexDigest arg how =
        .error (.notImplemented
          ("No available hashing function for " ++ how))) := by
  constructor
  · intro h
    unfold visit_HexDigest
    rw [if_pos h]
  · intro h
    unfold visit_HexDigest
    rw [if_neg h]

/-- Witness for claim C9, at `md5` (allow-listed) and `sha1` (not). -/
theorem hex_digest_allowlist_witness :
    ("md5" = "md5" ∨ "md5" = "sha256") ∧
    visit_HexDigest (SqlExpr.var "x") "md5" =
      .ok (.func "md5" [SqlExpr.var "x"]) ∧
    ¬("sha1" = "md5" ∨ "sha1" = "sha256") ∧
    visit_HexDigest (SqlExpr.var "x") "sha1" =
      .error (.notImplemented "No available hashing function for sha1") :=
  ⟨Or.inl rfl,
   (hex_digest_allowlist (SqlExpr.var "x") "md5").1 (Or.inl rfl),
   by decide,
   (hex_digest_allowlist (SqlExpr.var "x") "sha1").2 (by decide)⟩

/-- Claim C10: `TimestampFromUNIX` translates only the units `s` and `ms`
(to `sge.UnixToTime` and `epoch_ms` respectively); any other unit raises
an unsupported-operation error. -/
theorem timestamp_from_unix_units (arg : SqlExpr) (unit : IntervalUnit) :
    (unit.short = "ms" →
      visit_TimestampFromUNIX arg unit = .ok (.func "epoch_ms" [arg])) ∧
    (unit.short = "s" →
      visit_TimestampFromUNIX arg unit = .ok (.unixToTime arg)) ∧
    (unit.short ≠ "ms" → unit.short ≠ "s" →
      visit_TimestampFromUNIX arg unit =
        .error (.unsupportedOperation
          ("'" ++ unit.short ++ "' unit is not supported!"))) := by
  refine ⟨fun h => ?_, fun h => ?_, fun h1 h2 => ?_⟩
  · simp only [visit_TimestampFromUNIX]
    rw [h]
    simp
  · simp only [visit_TimestampFromUNIX]
    rw [h]
    simp
  · simp only [visit_TimestampFromUNIX]
    rw [if_neg h1, if_neg h2]

/-- Witness for claim C10, at the `ms`, `s`, `us` and `ns` units. -/
theorem timestamp_from_unix_units_witness :
    msUnit.short = "ms" ∧
    visit_TimestampFromUNIX (SqlExpr.var "x") msUnit =
      .ok (.func "epoch_ms" [SqlExpr.var "x"]) ∧
    sUnit.short = "s" ∧
    visit_TimestampFromUNIX (SqlExpr.var "x") sUnit =
      .ok (.unixToTime (SqlExpr.var "x")) ∧
    usUnit.short ≠ "ms" ∧ usUnit.short ≠ "s" ∧
    visit_TimestampFromUNIX (SqlExpr.var "x") usUnit =
      .error (.unsupportedOperation "'us' unit is not supported!") ∧
    visit_TimestampFromUNIX (SqlExpr.var "x") nsUnit =
      .error (.unsupportedOperation "'ns' unit is not supported!") :=
  ⟨rfl,
   (timestamp_from_unix_units (SqlExpr.var "x") msUnit).1 rfl,
   rfl,
   (timestamp_from_unix_units (SqlExpr.var "x") sUnit).2.1 rfl,
   by decide, by decide,
   (timestamp_from_unix_units (SqlExpr.var "x") usUnit).2.2
     (by decide) (by decide),
   (timestamp_from_unix_units (SqlExpr.var "x") nsUnit).2.2
     (by decide) (by decide)⟩

/-- Claim C2 counterexample: casting to a nanosecond interval type does
not fail with the unsupported-operation error; the `_INTERVAL_SUFFIXES`
dict subscript raises `KeyError`, an unhandled-case fault. -/
theorem interval_ns_cast_counterexample :
    visit_Cast (SqlExpr.var "x") (DType.int32 true)
        (DType.interval nsUnit true) =
      .error (.keyError "ns") ∧
    CompileError.isUnsupportedOperation (.keyError "ns") = false :=
  ⟨rfl, rfl⟩

/-- Claim C2 (amended): the interval-from-integer and interval-literal
paths reject a nanosecond unit with the unsupported-interval-resolution
error, while the cast-to-interval path fails with an unhandled `KeyError`
on the nanosecond unit. -/
theorem interval_ns_rejection_amended (arg : SqlExpr) (value : String)
    (n n' : Bool) (argDtype : DType) :
    visit_IntervalFromInteger arg nsUnit =
      .error (.unsupportedOperation
        (dialect ++ " doesn't support nanosecond interval resolutions")) ∧
    visit_NonNullLiteral value (.interval nsUnit n) =
      .error (.unsupportedOperation
        (dialect ++ " doesn't support nanosecond interval resolutions")) ∧
    visit_Cast arg argDtype (.interval nsUnit n') =
      .error (.keyError "ns") :=
  ⟨rfl, rfl, rfl⟩

/-- The sentinel condition `list_count(arg) < len(arg)` holds exactly when
the array contains a null element. -/
theorem list_count_lt_len_iff (xs : List Cell) :
    list_count xs < duck_len xs ↔ none ∈ xs := by
  unfold list_count duck_len
  induction xs with
  | nil => simp
  | cons x rest ih =>
    cases x with
    | none =>
      have hle : (rest.filterMap id).length ≤ rest.length :=
        List.length_filterMap_le _ _
      simp [List.filterMap_cons]
      omega
    | some a =>
      simp [List.filterMap_cons, ih]

/-- Claim C1 counterexample: for the non-null input `[1, 2, 2]` the
original length exceeds the deduplicated length, yet the compiled
`ArrayDistinct` expression appends no trailing null. -/
theorem arrayDistinct_counterexample :
    duck_len [some 1, some 2, some 2] >
      (list_distinct [some 1, some 2, some 2]).length ∧
    visit_ArrayDistinct (some [some 1, some 2, some 2]) =
      some [some 1, some 2] ∧
    visit_ArrayDistinct (some [some 1, some 2, some 2]) ≠
      some (list_distinct [some 1, some 2, some 2] ++ [none]) := by
  decide

/-- Claim C1 (amended): for every non-null input array the compiled
`ArrayDistinct` expression yields the deduplicated (duplicate- and
null-free) array with exactly one trailing null appended if and only if
the original array contains a null element. -/
theorem arrayDistinct_null_sentinel (xs : List Cell) :
    visit_ArrayDistinct (some xs) =
      some (list_distinct xs ++ (if none ∈ xs then [none] else [])) := by
  show some (list_distinct xs ++
      (if list_count xs < duck_len xs then [none] else [])) =
    some (list_distinct xs ++ (if none ∈ xs then [none] else []))
  by_cases h : none ∈ xs
  · rw [if_pos ((list_count_lt_len_iff xs).mpr h), if_pos h]
  · rw [if_neg (fun hc => h ((list_count_lt_len_iff xs).mp hc)),
        if_neg h]

/-- Claim C4 counterexample: at length `2` and index `-3`, the compiled
`ArrayIndex` expression passes `-3` to `list_extract` and yields `NULL`,
while the slice-bound normalization followed by the one-based shift
selects position `1` and yields the first element; the two rules disagree
both on the index passed and on the extracted value. -/
theorem array_index_normalization_counterexample :
    visit_ArrayIndex [some 10, some 20] (-3) = none ∧
    list_extract [some 10, some 20] (_neg_idx_to_pos 2 (-3) + 1) =
      some 10 ∧
    (-3 : Int) + (if (0 : Int) ≤ -3 then 1 else 0) ≠
      _neg_idx_to_pos 2 (-3) + 1 := by
  decide

/-- Claim C4 (amended): the compiled `ArrayIndex` expression extracts the
same element as the slice-bound normalization followed by the one-based
shift for every index `i` with `-L ≤ i`; for `i < -L` the two disagree
(`ArrayIndex` yields `NULL`, the normalization clamps to the first
element). -/
theorem array_index_vs_slice_normalization (xs : List Cell) (i : Int)
    (h : -(xs.length : Int) ≤ i) :
    visit_ArrayIndex xs i =
      list_extract xs (_neg_idx_to_pos (xs.length : Int) i + 1) := by
  rcases le_or_lt 0 i with hi | hi
  · have h1 : i + (if 0 ≤ i then (1 : Int) else 0) = i + 1 := by
      rw [if_pos hi]
    have h2 : _neg_idx_to_pos (xs.length : Int) i + 1 = i + 1 := by
      unfold _neg_idx_to_pos
      rw [if_pos hi]
    unfold visit_ArrayIndex
    rw [h1, h2]
  · have h1 : i + (if 0 ≤ i then (1 : Int) else 0) = i := by
      rw [if_neg (not_le.mpr hi)]
      ring
    have h2 : _neg_idx_to_pos (xs.length : Int) i + 1 =
        (xs.length : Int) + i + 1 := by
      unfold _neg_idx_to_pos
      rw [if_neg (not_le.mpr hi),
        max_eq_left (by omega : -(xs.length : Int) ≤ i)]
    unfold visit_ArrayIndex
    rw [h1, h2]
    unfold list_extract
    rw [if_neg (by omega : ¬(0 : Int) < i), if_pos hi,
        if_pos (by omega : (0 : Int) ≤ (xs.length : Int) + i),
        if_pos (by omega : (0 : Int) < (xs.length : Int) + i + 1)]
    have h3 : ((xs.length : Int) + i + 1 - 1).toNat =
        ((xs.length : Int) + i).toNat := by omega
    rw [h3]

/-- Witness for claim C4 (amended), at the array `[10]` and index `-1`. -/
theorem array_index_vs_slice_normalization_witness :
    -((([some 10] : List Cell).length : Int)) ≤ -1 ∧
    visit_ArrayIndex ([some 10] : List Cell) (-1) =
      list_extract ([some 10] : List Cell)
        (_neg_idx_to_pos ((([some 10] : List Cell).length : Int)) (-1) + 1) :=
  ⟨by decide,
   array_index_vs_slice_normalization ([some 10] : List Cell) (-1)
     (by decide)⟩

/-- Claim C5: an omitted slice start compiles the same as start `0`, an
omitted stop compiles the same as stop `L`, and slicing
`[10, 20, 30, 40]` with start omitted and stop `2` yields `[10, 20]`. -/
theorem array_slice_defaults (xs : List Cell) (start stop : Option Int) :
    visit_ArraySlice xs none stop = visit_ArraySlice xs (some 0) stop ∧
    visit_ArraySlice xs start none =
      visit_ArraySlice xs start (some (xs.length : Int)) ∧
    visit_ArraySlice [some 10, some 20, some 30, some 40] none (some 2) =
      [some 10, some 20] := by
  refine ⟨?_, ?_, by decide⟩
  · simp only [visit_ArraySlice]
    have h : min ((duck_len xs : Int))
        (_neg_idx_to_pos ((duck_len xs : Int)) 0) = 0 := by
      unfold _neg_idx_to_pos
      rw [if_pos (le_refl (0 : Int))]
      unfold duck_len
      omega
    rw [h]
  · simp only [visit_ArraySlice]
    have h : _neg_idx_to_pos ((duck_len xs : Int)) ((xs.length : Int)) =
        (duck_len xs : Int) := by
      unfold _neg_idx_to_pos duck_len
      rw [if_pos (by omega : (0 : Int) ≤ (xs.length : Int))]
    rw [h]

/-- `element_at` returns the empty list or a single stored value. -/
theorem element_at_nil_or_singleton (m : List (Int × Cell)) (k : Int) :
    element_at m k = [] ∨ ∃ v, element_at m k = [v] := by
  induction m with
  | nil => exact Or.inl rfl
  | cons p rest ih =>
    obtain ⟨k', v⟩ := p
    by_cases h : k' = k
    · exact Or.inr ⟨v, by simp [element_at, h]⟩
    · simpa [element_at, h] using ih

/-- Claim C6 counterexample: for the map `{1 ↦ NULL}` the key `1` is
present (the native lookup returns the one-element list `[NULL]`), yet
the compiled `MapGet` expression yields the caller default `42` rather
than the stored null value. -/
theorem map_get_counterexample :
    element_at [((1 : Int), (none : Cell))] 1 = [none] ∧
    visit_MapGet [((1 : Int), (none : Cell))] 1 (some 42) = some 42 ∧
    (some 42 : Cell) ≠ (none : Cell) := by
  decide

/-- Claim C6 (amended): the compiled `MapGet` expression yields the stored
value when the key is present with a non-null value, and yields the
caller default both when the key is absent and when the key is present
but stores a null value (`ifnull` cannot tell the two apart). -/
theorem map_get_semantics (m : List (Int × Cell)) (k : Int) (d : Cell) :
    visit_MapGet m k d =
      (match (element_at m k).head? with
       | some (some v) => some v
       | _ => d) := by
  rcases element_at_nil_or_singleton m k with h | ⟨v, h⟩
  · unfold visit_MapGet
    rw [h]
    rfl
  · unfold visit_MapGet
    rw [h]
    cases v <;> rfl
